import Mathlib

/-!
Verification of the metric-orchestration engine of `ffmpeg-quality-metrics`
(`ffmpeg_quality_metrics/ffmpeg_quality_metrics.py` and `utils.py`).

The Python code is shallowly embedded:
* Python `str` values are Lean `String`s; the `str` methods the code uses
  (`split` on a one-character separator, `startswith`, `strip`, `replace`,
  `join`, `int(...)`/`float(...)` parsing) are re-implemented below as total
  structural functions over `String.data` so that every definition evaluates
  inside the kernel.  Where the Python code would raise (e.g. an out-of-range
  index or a failed `int(...)`), the embedding takes an explicit default;
  every claim proved here stays inside the domain where the two agree.
* Python floats are modelled as `ℚ` (and `ℝ` where a square root appears);
  `round(x, 3)` is modelled as round-half-up on `ℚ`/`ℝ`.
* Python dicts (string-keyed, insertion-ordered) are association lists with
  an update-in-place-or-append write, `dictSet`.
* Side effects of `calculate` (spawned subprocesses, temp-file creation and
  deletion) are modelled by an explicit event trace and file set, with the
  external engine's behaviour supplied by a `CalcEnv` oracle.
-/

/-! ## Python string primitives over `List Char` -/

/-- Test whether `p` is a leading segment of `l` (model of `str.startswith`). -/
def listStarts : List Char → List Char → Bool
  | [], _ => true
  | _ :: _, [] => false
  | p :: ps, c :: cs => p == c && listStarts ps cs

/-- Split a character list at every occurrence of `sep`, keeping empty
    fields, as Python's `str.split(sep)` does for a one-character separator. -/
def splitChar (sep : Char) : List Char → List (List Char)
  | [] => [[]]
  | c :: cs =>
    let r := splitChar sep cs
    if c == sep then [] :: r
    else
      match r with
      | [] => [[c]]
      | g :: gs => (c :: g) :: gs

/-- Left-to-right, non-overlapping replacement of a non-empty pattern
    (model of `str.replace`); the fuel argument is the input length, which
    bounds the number of steps because every step consumes a character. -/
def replaceFuel (pat repl : List Char) : Nat → List Char → List Char
  | _, [] => []
  | 0, l => l
  | fuel + 1, c :: cs =>
    if listStarts pat (c :: cs) then
      repl ++ replaceFuel pat repl fuel (List.drop (pat.length - 1) cs)
    else
      c :: replaceFuel pat repl fuel cs

/-- Model of Python `s.startswith(p)`. -/
def pyStartsWith (s p : String) : Bool :=
  listStarts p.data s.data

/-- Model of Python `s.split(sep)` for a one-character separator. -/
def pySplit (s : String) (sep : Char) : List String :=
  (splitChar sep s.data).map fun l => ⟨l⟩

/-- Model of Python `s.replace(pat, repl)` for a non-empty pattern (every
    call site in the source uses a non-empty pattern). -/
def pyReplace (s pat repl : String) : String :=
  if pat.data = [] then s else ⟨replaceFuel pat.data repl.data s.data.length s.data⟩

/-- Whitespace characters stripped by `str.strip()` on the engine's output
    (ASCII space, tab, carriage return, newline). -/
def pyIsSpace (c : Char) : Bool :=
  c == ' ' || c == '\t' || c == '\r' || c == '\n'

/-- Model of Python `s.strip()`. -/
def pyStrip (s : String) : String :=
  ⟨List.reverse ((List.reverse (s.data.dropWhile pyIsSpace)).dropWhile pyIsSpace)⟩

/-- Digit string to number; `none` on a non-digit or on the empty string. -/
def digitsToNat : List Char → Option Nat
  | [] => none
  | l => l.foldl (fun acc c =>
      match acc with
      | none => none
      | some n => if '0' ≤ c ∧ c ≤ '9' then some (10 * n + (c.toNat - 48)) else none)
      (some 0)

/-- Model of Python `int(s)` for the optionally-signed decimal strings the
    engine emits; the Python call raises where this returns `none`, and the
    embedding's call sites take `0` there (no claim depends on that corner). -/
def pyToInt (s : String) : Option Int :=
  match s.data with
  | '-' :: rest => (digitsToNat rest).map fun n => -(n : Int)
  | l => (digitsToNat l).map fun n => (n : Int)

/-- Model of Python `float(s)` on the plain decimal literals
    (`[-]ddd[.ddd]`) that the engine writes, as an exact rational. -/
def pyToRat (s : String) : ℚ :=
  let signed : Bool := pyStartsWith s "-"
  let body : List Char := if signed then s.data.drop 1 else s.data
  let v : ℚ :=
    match splitChar '.' body with
    | [ip] => ((digitsToNat ip).getD 0 : ℚ)
    | [ip, fp] =>
      ((digitsToNat ip).getD 0 : ℚ) + ((digitsToNat fp).getD 0 : ℚ) / (10 ^ fp.length : ℚ)
    | _ => 0
  if signed then -v else v

/-- Model of Python `sep.join(parts)`. -/
def joinSep (sep : String) : List String → String
  | [] => ""
  | [s] => s
  | s :: rest => s ++ sep ++ joinSep sep rest

/-! ## Python dicts and frame records -/

/-- Per-frame record of one metric: sub-metric key to numeric value, in dict
    insertion order (`SingleMetricData` element in the source). -/
abbrev FrameRecord : Type := List (String × ℚ)

/-- Python dict write `d[k] = v`: update an existing key in place, else
    append at the end (insertion order preserved). -/
def dictSet {α : Type} : List (String × α) → String → α → List (String × α)
  | [], k, v => [(k, v)]
  | (k', v') :: rest, k, v =>
    if k' = k then (k, v) :: rest else (k', v') :: dictSet rest k v

/-- Python dict read `d.get(k)`. -/
def dictGet {α : Type} : List (String × α) → String → Option α
  | [], _ => none
  | (k', v') :: rest, k => if k' = k then some v' else dictGet rest k

/-- Model of Python `round(x, 3)` on exact rationals (round half up; CPython
    rounds the nearest binary double to even, which agrees everywhere except
    on exact `.0005` ties, which no claim exercises). -/
def round3 (q : ℚ) : ℚ :=
  ((round (1000 * q) : ℤ) : ℚ) / 1000

/-- Model of Python `round(x, 3)` on a real intermediate (the standard
    deviation passes through a square root). -/
noncomputable def round3R (x : ℝ) : ℝ :=
  ((round (1000 * x) : ℤ) : ℝ) / 1000

/-! ## Path helpers (`utils.py`)

The platform flag `IS_WIN` is threaded explicitly so the Windows branches of
`win_path_check` / `win_vmaf_model_path_check` are part of the model. -/

/-- Embedding of `utils.win_path_check`. -/
def winPathCheck (isWin : Bool) (path : String) : String :=
  if isWin then pyReplace (pyReplace path "\\" "/") ":" "\\:" else path

/-- Embedding of `utils.win_vmaf_model_path_check`. -/
def winVmafModelPathCheck (isWin : Bool) (path : String) : String :=
  if isWin then pyReplace (winPathCheck isWin path) "\\" "\\\\\\" else path

/-! ## VMAF filter options (`FfmpegQualityMetrics._get_libvmaf_filter_opts`) -/

/-- Inputs of `_get_libvmaf_filter_opts`: the resolved model path
    (`self.vmaf_model_path`), the libvmaf temp-file path
    (`self.temp_files["libvmaf"]`) and the merged `self.vmaf_options`. -/
structure LibvmafConfig where
  isWin : Bool
  modelPath : String
  modelParams : List String
  logPath : String
  nThreads : Int
  nSubsample : Int
  features : List String
deriving DecidableEq

/-- Key/value split of one `key=value` model parameter (Python's
    two-element unpack of `model_param.split("=")`). -/
def paramKV (p : String) : String × String :=
  ((pySplit p '=').getD 0 "", (pySplit p '=').getD 1 "")

/-- The `all_model_params` dict: `path` first, then every extra model
    parameter merged in (dict write, so a repeated key overwrites). -/
def allModelParams (cfg : LibvmafConfig) : List (String × String) :=
  cfg.modelParams.foldl
    (fun acc p => dictSet acc (paramKV p).1 (paramKV p).2)
    [("path", winVmafModelPathCheck cfg.isWin cfg.modelPath)]

/-- Normalisation of one feature entry: prepend `name=` unless the string
    already starts with `name`, then escape its colons. -/
def featureEntry (f : String) : String :=
  pyReplace (if ¬ pyStartsWith f "name" then "name=" ++ f else f) ":" "\\:"

/-- Embedding of `_get_libvmaf_filter_opts`. -/
def getLibvmafFilterOpts (cfg : LibvmafConfig) : String :=
  let allModelParamsStr :=
    joinSep "\\:" ((allModelParams cfg).map fun kv => kv.1 ++ "=" ++ kv.2)
  let baseOpts : List (String × String) :=
    [("model", allModelParamsStr),
     ("log_path", winPathCheck cfg.isWin cfg.logPath),
     ("log_fmt", "json"),
     ("n_threads", toString cfg.nThreads),
     ("n_subsample", toString cfg.nSubsample)]
  let vmafOpts : List (String × String) :=
    if cfg.features ≠ [] then
      baseOpts ++ [("feature", joinSep "|" (cfg.features.map featureEntry))]
    else baseOpts
  joinSep ":" (vmafOpts.map fun kv => kv.1 ++ "=" ++ kv.2)

/-- Options string as the spec's words describe it, leaving the test used to
    decide whether a feature already carries a name as a parameter: the model
    specifier (`path=...` merged with the extra `key=value` parameters,
    joined by the escaped colon `\:`), then `log_path`, `log_fmt=json`,
    `n_threads`, `n_subsample`, and — only when features were requested — a
    `feature` parameter with colons escaped inside each feature and the
    features pipe-joined. -/
def libvmafOptsStated (hasName : String → Bool) (cfg : LibvmafConfig) : String :=
  "model="
    ++ joinSep "\\:" ((allModelParams cfg).map fun kv => kv.1 ++ "=" ++ kv.2)
    ++ ":log_path=" ++ winPathCheck cfg.isWin cfg.logPath
    ++ ":log_fmt=json"
    ++ ":n_threads=" ++ toString cfg.nThreads
    ++ ":n_subsample=" ++ toString cfg.nSubsample
    ++ (if cfg.features = [] then ""
        else ":feature=" ++ joinSep "|" (cfg.features.map fun f =>
          pyReplace (if hasName f then f else "name=" ++ f) ":" "\\:"))

/-- Claim C5 as stated: a feature is left untouched exactly when it carries
    an explicit `name=` parameter. -/
def libvmafOptsClaimed (cfg : LibvmafConfig) : String :=
  libvmafOptsStated (fun f => pyStartsWith f "name=") cfg

/-- Claim C5 as the code implements it: the test is merely that the feature
    string starts with the four characters `name`. -/
def libvmafOptsAmended (cfg : LibvmafConfig) : String :=
  libvmafOptsStated (fun f => pyStartsWith f "name") cfg

/-! ## Processing-graph builder (`FfmpegQualityMetrics.calculate`, lines 366-411) -/

/-- Embedding of `METRIC_TO_FILTER_MAP`. -/
def metricToFilterMap : List (String × String) :=
  [("vmaf", "libvmaf"), ("psnr", "psnr"), ("ssim", "ssim"), ("vif", "vif")]

/-- Embedding of `POSSIBLE_FILTERS`. -/
def possibleFilters : List String :=
  ["libvmaf", "psnr", "ssim", "vif"]

/-- Per-instance state the graph builder reads: scaling algorithm, platform
    flag, the psnr/ssim temp-file paths and the resolved vmaf configuration. -/
structure GraphCtx where
  isWin : Bool
  scalingAlgorithm : String
  tempPsnr : String
  tempSsim : String
  vmaf : LibvmafConfig

/-- Embedding of `_get_filter_opts`; the final branch raises in Python and
    is unreachable for the four known filter names. -/
def getFilterOpts (ctx : GraphCtx) (filterName : String) : String :=
  if filterName = "ssim" ∨ filterName = "psnr" then
    filterName ++ "='" ++ winPathCheck ctx.isWin
      (if filterName = "ssim" then ctx.tempSsim else ctx.tempPsnr) ++ "'"
  else if filterName = "libvmaf" then
    "libvmaf='" ++ getLibvmafFilterOpts ctx.vmaf ++ "'"
  else if filterName = "vif" then
    "vif,metadata=mode=print"
  else ""

/-- Filter name for a metric name, after validation (`METRIC_TO_FILTER_MAP[m]`). -/
def filterOf (m : String) : String :=
  (List.lookup m metricToFilterMap).getD ""

/-- The three leading scale/timestamp-reset chains, per engine dialect. -/
def baseChains (ctx : GraphCtx) (lt71 : Bool) : List String :=
  if lt71 then
    ["[1][0]scale2ref=flags=" ++ ctx.scalingAlgorithm ++ "[dist][ref]",
     "[dist]settb=AVTB,setpts=PTS-STARTPTS[distpts]",
     "[ref]settb=AVTB,setpts=PTS-STARTPTS[refpts]"]
  else
    ["[1][0]scale=rw:rh:flags=" ++ ctx.scalingAlgorithm ++ "[dist]",
     "[dist]settb=AVTB,setpts=PTS-STARTPTS[distpts]",
     "[0]settb=AVTB,setpts=PTS-STARTPTS[refpts]"]

/-- Concatenation of the `[source1]..[sourceN]` output labels of a split. -/
def splitLabels (source : String) (n : Nat) : String :=
  joinSep "" ((List.range n).map fun k => "[" ++ source ++ toString (k + 1) ++ "]")

/-- One `split` chain: `[<source>pts]split=<n>[<source>1]...[<source>n]`. -/
def splitChain (source : String) (n : Nat) : String :=
  "[" ++ source ++ "pts]split=" ++ toString n ++ splitLabels source n

/-- The per-metric chains of the multi-metric case, mirroring the
    `zip(range(1, n_splits + 1), metrics)` loop. -/
def metricChains (ctx : GraphCtx) : Nat → List String → List String
  | _, [] => []
  | i, m :: rest =>
    ("[dist" ++ toString i ++ "][ref" ++ toString i ++ "]"
        ++ getFilterOpts ctx (filterOf m))
      :: metricChains ctx (i + 1) rest

/-- Embedding of the `filter_chains` construction in `calculate`
    (lines 366-411): base chains, then the split fan-out when more than one
    metric is requested, then the metric stages. -/
def buildFilterChains (ctx : GraphCtx) (metrics : List String) (lt71 : Bool) : List String :=
  let base := baseChains ctx lt71
  let n := metrics.length
  let withSplits :=
    if n > 1 then base ++ [splitChain "dist" n, splitChain "ref" n] else base
  if n = 1 then
    withSplits ++
      ["[distpts][refpts]" ++ getFilterOpts ctx (filterOf (metrics.getD 0 ""))]
  else
    withSplits ++ metricChains ctx 1 metrics

/-! ## Aggregator (`FfmpegQualityMetrics.get_global_stats`) -/

/-- Embedding of `np.average` on the harvested values. -/
def npAverage (xs : List ℚ) : ℚ :=
  xs.sum / (xs.length : ℚ)

/-- Embedding of `np.median`: sort ascending, middle element for odd length,
    mean of the two middle elements for even length. -/
def npMedian (xs : List ℚ) : ℚ :=
  let s := List.insertionSort (· ≤ ·) xs
  if xs.length % 2 = 1 then s.getD (xs.length / 2) 0
  else (s.getD (xs.length / 2 - 1) 0 + s.getD (xs.length / 2) 0) / 2

/-- Population variance: mean of the squared deviations from the mean. -/
def npVariance (xs : List ℚ) : ℚ :=
  (xs.map fun x => (x - npAverage xs) ^ 2).sum / (xs.length : ℚ)

/-- Embedding of `np.std` (population standard deviation). -/
noncomputable def npStd (xs : List ℚ) : ℝ :=
  Real.sqrt ((npVariance xs : ℚ) : ℝ)

/-- Embedding of `np.min` on a harvested (non-empty) value list. -/
def npMin : List ℚ → ℚ
  | [] => 0
  | x :: xs => xs.foldl min x

/-- Embedding of `np.max` on a harvested (non-empty) value list. -/
def npMax : List ℚ → ℚ
  | [] => 0
  | x :: xs => xs.foldl max x

/-- One sub-metric's entry of `get_global_stats` (the
    `GlobalStatsData` dict, in source insertion order). -/
structure StatsData where
  average : ℚ
  median : ℚ
  stdev : ℝ
  min : ℚ
  max : ℚ

/-- The five statistics computed for one sub-metric's value list. -/
noncomputable def statsOf (values : List ℚ) : StatsData :=
  { average := round3 (npAverage values)
    median := round3 (npMedian values)
    stdev := round3R (npStd values)
    min := round3 (npMin values)
    max := round3 (npMax values) }

/-- Sub-metric keys taken from the first frame of a series, excluding `n`. -/
def submetricKeys (series : List FrameRecord) : List String :=
  ((series.getD 0 []).map Prod.fst).filter (· ≠ "n")

/-- Stats entries of one non-empty series: for each sub-metric key of the
    first frame, the five statistics over the whole series (a missing key
    would raise a `KeyError` in Python; the embedding reads `0` there, and
    no claim leaves the domain where every frame carries the key). -/
noncomputable def statsEntries (series : List FrameRecord) : List (String × StatsData) :=
  (submetricKeys series).map fun k =>
    (k, statsOf (series.map fun fr => (dictGet fr k).getD 0))

/-- Embedding of `get_global_stats`: iterate the per-metric data dict in
    order, skip metrics with an empty series, and collect the stats dict. -/
noncomputable def getGlobalStats (data : List (String × List FrameRecord)) :
    List (String × List (String × StatsData)) :=
  data.foldl
    (fun acc entry =>
      if entry.2 = [] then acc else acc ++ [(entry.1, statsEntries entry.2)])
    []

/-! ## VMAF harvester (`FfmpegQualityMetrics._read_vmaf_temp_file`) -/

/-- One entry of the `frames` array of the libvmaf JSON artifact. -/
structure VmafFrame where
  frameNum : Int
  metrics : FrameRecord

/-- Embedding of `_read_vmaf_temp_file`'s loop: for each frame record of the
    artifact, in order, write `n = frameNum + 1` into its metrics dict and
    append the result to the vmaf series. -/
def readVmafTempFile (frames : List VmafFrame) : List FrameRecord :=
  frames.foldl
    (fun acc fr => acc ++ [dictSet fr.metrics "n" ((fr.frameNum + 1 : Int) : ℚ)])
    []

/-! ## VIF console-text harvester (`FfmpegQualityMetrics._read_vif_output`) -/

/-- Field number 3 of a space-split line (the metadata token following
    `[Parsed_metadata... @ 0x...]`); Python would raise `IndexError` on a
    shorter line, the embedding reads the empty string, which matches no
    token pattern. -/
def vifField3 (line : String) : String :=
  (pySplit line ' ').getD 3 ""

/-- Frame number of a `frame:<n>` token (`int(fields[3].split(":")[1])`). -/
def vifFrameNum (tok : String) : Int :=
  (pyToInt ((pySplit tok ':').getD 1 "")).getD 0

/-- Key renaming for a `lavfi.vif.scale.<i>` token. -/
def vifRenameKey (k : String) : String :=
  pyReplace (pyReplace k "lavfi.vif." "") "." "_"

/-- Application of one data token to the frame dict under construction:
    a `lavfi.vif...` token stores its renamed key with the value rounded to
    3 decimals; any other token leaves the dict unchanged. -/
def vifApplyTok (fd : FrameRecord) (tok : String) : FrameRecord :=
  if pyStartsWith tok "lavfi.vif" then
    dictSet fd (vifRenameKey ((pySplit tok '=').getD 0 ""))
      (round3 (pyToRat ((pySplit tok '=').getD 1 "")))
  else fd

/-- Loop state of `_read_vif_output`. -/
structure VifState where
  currentFrame : Option Int
  frameData : FrameRecord
  acc : List FrameRecord

/-- Embedding of one iteration of the `_read_vif_output` line loop. -/
def vifStep (st : VifState) (line : String) : VifState :=
  if ¬ pyStartsWith line "[Parsed_metadata" then st
  else
    let tok := vifField3 line
    if pyStartsWith tok "frame" then
      { currentFrame := some (vifFrameNum tok)
        frameData := [("n", ((vifFrameNum tok : Int) : ℚ))]
        acc := if st.frameData ≠ [] then st.acc ++ [st.frameData] else st.acc }
    else if st.currentFrame = none ∨ ¬ pyStartsWith tok "lavfi.vif" then st
    else { st with frameData := vifApplyTok st.frameData tok }

/-- Embedding of `_read_vif_output`: strip every line, run the loop, then
    flush the final frame's accumulated record if there is one. -/
def readVifOutput (out : String) : List FrameRecord :=
  let fin := ((pySplit out '\n').map pyStrip).foldl vifStep ⟨none, [], []⟩
  if fin.frameData ≠ [] then fin.acc ++ [fin.frameData] else fin.acc

/-- Metadata tokens of the console text, as the claim describes them: only
    lines starting with the metadata-stage marker are considered, and each
    contributes its metadata token. -/
def vifTokens (out : String) : List String :=
  (((pySplit out '\n').map pyStrip).filter
      (fun l => pyStartsWith l "[Parsed_metadata")).map vifField3

/-- Grouping form of the vif parse, following the spec's words: a
    `frame:<n>` token flushes the pending record and starts a fresh one with
    `n` taken as-is; each following `lavfi.vif` token is folded into the
    pending record; tokens before the first boundary are ignored; the last
    pending record is flushed at end of text. -/
def vifSpecGo : Option FrameRecord → List String → List FrameRecord
  | pending, [] =>
    match pending with
    | none => []
    | some fd => [fd]
  | pending, tok :: rest =>
    if pyStartsWith tok "frame" then
      (match pending with
       | none => []
       | some fd => [fd])
        ++ vifSpecGo (some [("n", ((vifFrameNum tok : Int) : ℚ))]) rest
    else
      match pending with
      | none => vifSpecGo none rest
      | some fd => vifSpecGo (some (vifApplyTok fd tok)) rest

/-- Declarative restatement of the vif parse used to check `readVifOutput`. -/
def vifSpecParse (out : String) : List FrameRecord :=
  vifSpecGo none (vifTokens out)

/-- Count of frame-boundary tokens in the console text. -/
def vifBoundaryCount (out : String) : Nat :=
  (vifTokens out).countP (fun t => pyStartsWith t "frame")

/-- Count of frame-boundary tokens that are immediately followed by a data
    token or by the end of the text — the quantity claim C4 says equals the
    number of stored records. -/
def vifClaimedCount : List String → Nat
  | [] => 0
  | t :: rest =>
    (if pyStartsWith t "frame" then
      match rest with
      | [] => 1
      | t2 :: _ => if pyStartsWith t2 "frame" then 0 else 1
     else 0) + vifClaimedCount rest

/-! ## Engine invocation and `calculate` control flow

`calculate` is embedded as a function of an oracle environment describing
the external engine's behaviour (probed capabilities, probe results, the
engine run's outcome, artifact contents and the file system).  Side effects
are recorded in an event trace; the file system is a plain list of paths.
The processing-graph construction inside `calculate` is the pure
`buildFilterChains` above and is verified separately. -/

/-- Observable side effects of one `calculate` call. -/
inductive CalcEvent where
  | probeFps (path : String)
  | warnFpsMismatch
  | spawnEngine
  | removeFile (path : String)
deriving DecidableEq

/-- Errors of one `calculate` call: the typed `FfmpegQualityMetricsError`
    versus any other raised exception (`RuntimeError`, parse errors, ...). -/
inductive CalcError where
  | metricsError (msg : String)
  | runtimeError (msg : String)
deriving DecidableEq

/-- Run configuration fields of `FfmpegQualityMetrics.__init__` that
    `calculate` reads. -/
structure CalcConfig where
  ref : String
  dist : String
  framerate : Option ℚ
  dryRun : Bool
  progress : Bool
  keepTmpFiles : Bool
  tmpDir : String

/-- Oracle describing the external engine and file system for one call. -/
structure CalcEnv where
  availableFilters : List String
  lt71 : Bool
  vmafModelOk : Bool
  probeRef : Option ℚ
  probeDist : Option ℚ
  engineRun : Except String String
  filesBefore : List String
  filesAfterRun : List String
  vmafArtifact : Except String (List VmafFrame)
  ssimArtifact : Except String (List FrameRecord)
  psnrArtifact : Except String (List FrameRecord)

/-- Model of POSIX `os.path.basename`. -/
def pyBasename (s : String) : String :=
  (pySplit s '/').getLastD ""

/-- Temp-file path chosen in `__init__` for one filter (`.json` for libvmaf,
    `.txt` otherwise). -/
def tempFileFor (cfg : CalcConfig) (filterName : String) : String :=
  let suffix := if filterName ≠ "libvmaf" then "txt" else "json"
  cfg.tmpDir ++ "/ffmpeg_quality_metrics_" ++ filterName ++ "_"
    ++ pyBasename cfg.ref ++ "_" ++ pyBasename cfg.dist ++ "." ++ suffix

/-- The disposable artifact paths, in `POSSIBLE_FILTERS` order (the
    iteration order of `self.temp_files.values()`). -/
def tempFileList (cfg : CalcConfig) : List String :=
  possibleFilters.map (tempFileFor cfg)

/-- Embedding of the metric-validation loop at the top of `calculate`
    (lines 346-353): first offending metric wins. -/
def checkMetrics : List String → List String → Option String
  | [], _ => none
  | m :: rest, avail =>
    match List.lookup m metricToFilterMap with
    | none => some ("No such metric '" ++ m ++ "'")
    | some f =>
      if f ∉ possibleFilters then some ("No such metric '" ++ m ++ "'")
      else if f ∉ avail then
        some ("Your ffmpeg version does not have the filter '" ++ f ++ "'")
      else checkMetrics rest avail

/-- Everything `calculate` checks before the `try` block: non-empty metric
    list, known and available filters, and — when vmaf is requested — the
    libvmaf capability check and the model-path resolution
    (`_set_vmaf_model_path`, whose failure message embeds the path; the
    model keeps a fixed message as no claim inspects it). -/
def validateMetrics (metrics : List String) (env : CalcEnv) : Option String :=
  if metrics = [] then some "No metrics specified!"
  else
    match checkMetrics metrics env.availableFilters with
    | some e => some e
    | none =>
      if "vmaf" ∈ metrics ∧ "libvmaf" ∉ env.availableFilters then
        some "Your ffmpeg build does not have support for VMAF. Make sure you download or build a version compiled with --enable-libvmaf!"
      else if "vmaf" ∈ metrics ∧ ¬ env.vmafModelOk then
        some "Could not find model at the supplied path. Please set --model-path to a valid VMAF .json model file."
      else none

/-- Embedding of `get_framerate` for one input: the probe is one engine
    invocation; an unparseable diagnostic raises the typed error. -/
def probeResult (path : String) (probe : Option ℚ) : Except CalcError ℚ :=
  match probe with
  | some r => Except.ok r
  | none => Except.error (.metricsError ("could not parse FPS from file " ++ path ++ "!"))

/-- Embedding of `_get_framerates`: probe both files (reference first; a
    failing reference probe raises before the distorted probe runs) and warn
    when the two rates differ. -/
def getFramerates (cfg : CalcConfig) (env : CalcEnv) :
    Except CalcError (ℚ × ℚ) × List CalcEvent :=
  match env.probeRef with
  | none =>
    (probeResult cfg.ref none |>.map fun r => (r, r), [CalcEvent.probeFps cfg.ref])
  | some r1 =>
    match env.probeDist with
    | none =>
      (probeResult cfg.dist none |>.map fun r => (r, r),
       [CalcEvent.probeFps cfg.ref, CalcEvent.probeFps cfg.dist])
    | some r2 =>
      (Except.ok (r1, r2),
       [CalcEvent.probeFps cfg.ref, CalcEvent.probeFps cfg.dist]
         ++ if r1 ≠ r2 then [CalcEvent.warnFpsMismatch] else [])

/-- Embedding of the frame-rate resolution at the top of
    `_run_ffmpeg_command`: `if not self.framerate` probes both files (note
    that a forced rate of `0` is falsy in Python and also probes), otherwise
    the forced rate is used for both sides with no probe. -/
def resolveFramerates (cfg : CalcConfig) (env : CalcEnv) :
    Except CalcError (ℚ × ℚ) × List CalcEvent :=
  if cfg.framerate.getD 0 = 0 then getFramerates cfg env
  else (Except.ok (cfg.framerate.getD 0, cfg.framerate.getD 0), [])

/-- Embedding of `_read_temp_files` for a non-dry run: harvest the vmaf,
    ssim and psnr artifacts, in that order, for the requested metrics; the
    first artifact that cannot be opened or parsed aborts the call.  The
    ssim/psnr line parsers are not themselves under test, so the oracle
    supplies their parsed records. -/
def readTempFiles (metrics : List String) (env : CalcEnv) :
    Except String (List FrameRecord × List FrameRecord × List FrameRecord) := do
  let vm ← if "vmaf" ∈ metrics then env.vmafArtifact.map readVmafTempFile else Except.ok []
  let ss ← if "ssim" ∈ metrics then env.ssimArtifact else Except.ok []
  let ps ← if "psnr" ∈ metrics then env.psnrArtifact else Except.ok []
  Except.ok (vm, ss, ps)

/-- Embedding of `_cleanup_temp_files` over a file set: every temp file
    that exists is removed unless retention was requested; removals are
    recorded as events. -/
def cleanupTempFiles (keep : Bool) : List String → List String → List String × List CalcEvent
  | [], files => (files, [])
  | t :: ts, files =>
    if t ∈ files then
      if keep then cleanupTempFiles keep ts files
      else
        let r := cleanupTempFiles keep ts (files.filter (· ≠ t))
        (r.1, CalcEvent.removeFile t :: r.2)
    else cleanupTempFiles keep ts files

/-- Embedding of `calculate` around the engine invocation: validation, the
    `try` block (engine run, artifact harvest, console-text harvest) and the
    `finally` cleanup; returns the per-metric data filtered to non-empty
    series, the event trace and the final file set.  The `progress` branch
    differs only in the spawn mechanism, not in any behaviour the claims
    observe, so both branches share this model. -/
def calculate (cfg : CalcConfig) (metrics : List String) (env : CalcEnv) :
    Except CalcError (List (String × List FrameRecord)) × List CalcEvent × List String :=
  match validateMetrics metrics env with
  | some msg => (Except.error (.metricsError msg), [], env.filesBefore)
  | none =>
    match resolveFramerates cfg env with
    | (Except.error e, evs) =>
      let c := cleanupTempFiles cfg.keepTmpFiles (tempFileList cfg) env.filesBefore
      (Except.error e, evs ++ c.2, c.1)
    | (Except.ok _, evs) =>
      if cfg.dryRun then
        let c := cleanupTempFiles cfg.keepTmpFiles (tempFileList cfg) env.filesBefore
        (Except.error (.metricsError "ffmpeg output is empty!"), evs ++ c.2, c.1)
      else
        match env.engineRun with
        | Except.error msg =>
          let c := cleanupTempFiles cfg.keepTmpFiles (tempFileList cfg) env.filesAfterRun
          (Except.error (.runtimeError msg), evs ++ [CalcEvent.spawnEngine] ++ c.2, c.1)
        | Except.ok output =>
          match readTempFiles metrics env with
          | Except.error msg =>
            let c := cleanupTempFiles cfg.keepTmpFiles (tempFileList cfg) env.filesAfterRun
            (Except.error (.runtimeError msg), evs ++ [CalcEvent.spawnEngine] ++ c.2, c.1)
          | Except.ok (vm, ss, ps) =>
            if output = "" then
              let c := cleanupTempFiles cfg.keepTmpFiles (tempFileList cfg) env.filesAfterRun
              (Except.error (.metricsError "ffmpeg output is empty!"),
               evs ++ [CalcEvent.spawnEngine] ++ c.2, c.1)
            else
              let vifData := if "vif" ∈ metrics then readVifOutput output else []
              let data := [("vmaf", vm), ("psnr", ps), ("ssim", ss), ("vif", vifData)]
              let c := cleanupTempFiles cfg.keepTmpFiles (tempFileList cfg) env.filesAfterRun
              (Except.ok (data.filter fun p => ¬ p.2.isEmpty),
               evs ++ [CalcEvent.spawnEngine] ++ c.2, c.1)

/-! ## Frame-count cap (claim C9)

The `num_frames` / `start_offset` support of this repository is not under
`src/`: only its tests (`src/tests/test_metrics.py`) and its CLI caller
(`src/src/ffmpeg_quality_metrics/__main__.py`, which passes
`num_frames=...` to the constructor) are present, so the capped engine
invocation is modelled from the spec. -/

/-- Modelled from the spec: the constructor's optional `num_frames` cap is
    applied to the engine invocation (`-frames` style), so the engine
    processes `min cap available` frames — requesting more frames than the
    source holds yields all available frames rather than an error
    (`src/ffmpeg_quality_metrics/ffmpeg_quality_metrics.py` lacks the
    `num_frames` parameter that `src/tests/test_metrics.py` exercises). -/
def engineFrameCount (sourceFrames : Nat) (numFrames : Option Nat) : Nat :=
  match numFrames with
  | none => sourceFrames
  | some k => min k sourceFrames

/-- Modelled from the spec: the harvested MetricSeries of a capped run has
    one FrameRecord per processed frame, numbered `n = 1, 2, ...`. -/
def cappedSeries (sourceFrames : Nat) (numFrames : Option Nat) : List FrameRecord :=
  (List.range (engineFrameCount sourceFrames numFrames)).map
    fun i => [("n", ((i + 1 : Nat) : ℚ))]

/-! ## Remaining definitions used by the theorems below -/

/-- Token-level form of one `_read_vif_output` loop iteration (the body
    behind the metadata-line guard). -/
def vifStepTok (st : VifState) (tok : String) : VifState :=
  if pyStartsWith tok "frame" then
    { currentFrame := some (vifFrameNum tok)
      frameData := [("n", ((vifFrameNum tok : Int) : ℚ))]
      acc := if st.frameData ≠ [] then st.acc ++ [st.frameData] else st.acc }
  else if st.currentFrame = none ∨ ¬ pyStartsWith tok "lavfi.vif" then st
  else { st with frameData := vifApplyTok st.frameData tok }

/-- Final flush of the vif loop state. -/
def finishVif (st : VifState) : List FrameRecord :=
  if st.frameData ≠ [] then st.acc ++ [st.frameData] else st.acc

/-- Console text whose two frame-boundary tokens are consecutive: the first
    boundary is followed neither by a data token nor by the end of text. -/
def vifEx : String :=
  "[Parsed_metadata_4 @ 0x1] frame:0\n[Parsed_metadata_4 @ 0x1] frame:1"

/-- Concrete `LibvmafConfig` used by witnesses. -/
def vmafCfg0 : LibvmafConfig :=
  { isWin := false
    modelPath := "/usr/local/share/model/vmaf_v0.6.1.json"
    modelParams := []
    logPath := "/tmp/ffmpeg_quality_metrics_libvmaf_r.mp4_d.mp4.json"
    nThreads := 0
    nSubsample := 1
    features := [] }

/-- Concrete `GraphCtx` used by witnesses. -/
def ctx0 : GraphCtx :=
  { isWin := false
    scalingAlgorithm := "bicubic"
    tempPsnr := "/tmp/ffmpeg_quality_metrics_psnr_r.mp4_d.mp4.txt"
    tempSsim := "/tmp/ffmpeg_quality_metrics_ssim_r.mp4_d.mp4.txt"
    vmaf := vmafCfg0 }


/-- Vmaf configuration whose single feature starts with `name` without
    carrying an explicit `name=` parameter. -/
def vmafCfgNameFoo : LibvmafConfig :=
  { vmafCfg0 with features := ["namefoo"] }

/-- Concrete run configuration used by witnesses and counterexamples. -/
def cfgBase : CalcConfig :=
  { ref := "r.mp4", dist := "d.mp4", framerate := none, dryRun := false,
    progress := false, keepTmpFiles := false, tmpDir := "/tmp" }

/-- Configuration forcing a frame rate of 25. -/
def cfgForced25 : CalcConfig := { cfgBase with framerate := some 25 }

/-- Configuration forcing the degenerate frame rate 0 (falsy in Python). -/
def cfgForced0 : CalcConfig := { cfgBase with framerate := some 0 }

/-- Dry-run configuration without a forced frame rate. -/
def cfgDry : CalcConfig := { cfgBase with dryRun := true }

/-- Dry-run configuration with a forced frame rate. -/
def cfgDryForced : CalcConfig := { cfgBase with dryRun := true, framerate := some 25 }

/-- Configuration retaining the temp files. -/
def cfgKeep : CalcConfig := { cfgBase with keepTmpFiles := true }

/-- Concrete engine oracle: all filters available, probes returning
    differing rates 25 and 30, a successful engine run, empty artifacts. -/
def envProbes : CalcEnv :=
  { availableFilters := ["libvmaf", "psnr", "ssim", "vif"]
    lt71 := false
    vmafModelOk := true
    probeRef := some 25
    probeDist := some 30
    engineRun := Except.ok "console"
    filesBefore := []
    filesAfterRun := [tempFileFor cfgBase "psnr"]
    vmafArtifact := Except.ok []
    ssimArtifact := Except.ok []
    psnrArtifact := Except.ok [[("n", 1)]] }

/-- Engine oracle whose build lacks the libvmaf filter. -/
def envNoVmaf : CalcEnv := { envProbes with availableFilters := ["psnr", "ssim", "vif"] }

/-- Engine oracle whose reference-file probe has no parseable frame rate. -/
def envProbeFail : CalcEnv := { envProbes with probeRef := none }

/-- Writing a key never empties a dict. -/
theorem dictSet_ne_nil {α : Type} (d : List (String × α)) (k : String) (v : α) :
    dictSet d k v ≠ [] := by
  cases d with
  | nil => simp [dictSet]
  | cons p rest =>
    cases p with
    | mk k' v' =>
      by_cases h : k' = k <;> simp [dictSet, h]

/-- Reading back the key just written returns the written value. -/
theorem dictGet_dictSet {α : Type} (d : List (String × α)) (k : String) (v : α) :
    dictGet (dictSet d k v) k = some v := by
  induction d with
  | nil => simp [dictSet, dictGet]
  | cons p rest ih =>
    cases p with
    | mk k' v' =>
      by_cases h : k' = k
      · simp [dictSet, dictGet, h]
      · simp [dictSet, dictGet, h, ih]

/-! ## Claim C1 — split fan-out of the processing graph -/

/-- Closed form of the per-metric chain loop: it enumerates the metrics
    from index 1 in caller order. -/
theorem metricChains_eq (ctx : GraphCtx) :
    ∀ (l : List String) (k : Nat),
      metricChains ctx k l =
        (List.enumFrom k l).map (fun p =>
          "[dist" ++ toString p.1 ++ "][ref" ++ toString p.1 ++ "]"
            ++ getFilterOpts ctx (filterOf p.2)) := by
  intro l
  induction l with
  | nil => intro k; simp [metricChains, List.enumFrom]
  | cons m rest ih => intro k; simp [metricChains, List.enumFrom, ih]

/-- Claim C1: with more than one requested metric, the graph is the three
    base chains, then exactly one split stage per branch (distorted then
    reference) fanning out into exactly N labelled copies, then one metric
    stage per requested metric wired to its numbered branch pair in
    caller-specified order; with exactly one requested metric there is no
    split stage and the single metric stage is wired directly to
    `[distpts]`/`[refpts]`. -/
theorem calculate_filter_graph (ctx : GraphCtx) (metrics : List String) (lt71 : Bool) :
    (∀ m, metrics = [m] →
      buildFilterChains ctx metrics lt71 =
        baseChains ctx lt71
          ++ ["[distpts][refpts]" ++ getFilterOpts ctx (filterOf m)])
    ∧ (1 < metrics.length →
      buildFilterChains ctx metrics lt71 =
        baseChains ctx lt71
          ++ [splitChain "dist" metrics.length, splitChain "ref" metrics.length]
          ++ (List.enumFrom 1 metrics).map (fun p =>
                "[dist" ++ toString p.1 ++ "][ref" ++ toString p.1 ++ "]"
                  ++ getFilterOpts ctx (filterOf p.2))) := by
  constructor
  · intro m hm
    subst hm
    simp [buildFilterChains]
  · intro h
    have h1 : ¬ metrics.length = 1 := by omega
    simp [buildFilterChains, h, h1, metricChains_eq]

/-- Witness for C1 at a one-metric and a two-metric request. -/
theorem calculate_filter_graph_witness :
    (buildFilterChains ctx0 ["ssim"] false =
      baseChains ctx0 false
        ++ ["[distpts][refpts]" ++ getFilterOpts ctx0 (filterOf "ssim")])
    ∧ (buildFilterChains ctx0 ["ssim", "psnr"] false =
      baseChains ctx0 false
        ++ [splitChain "dist" 2, splitChain "ref" 2]
        ++ (List.enumFrom 1 ["ssim", "psnr"]).map (fun p =>
              "[dist" ++ toString p.1 ++ "][ref" ++ toString p.1 ++ "]"
                ++ getFilterOpts ctx0 (filterOf p.2))) := by
  constructor
  · exact (calculate_filter_graph ctx0 ["ssim"] false).1 "ssim" rfl
  · simpa using (calculate_filter_graph ctx0 ["ssim", "psnr"] false).2 (by decide)

/-! ## Claim C2 — global statistics -/

/-- Closed form of the `get_global_stats` fold: metrics with an empty
    series are dropped, every other metric maps to its stats entries. -/
theorem getGlobalStats_eq_aux (data : List (String × List FrameRecord))
    (acc : List (String × List (String × StatsData))) :
    data.foldl
      (fun acc entry =>
        if entry.2 = [] then acc else acc ++ [(entry.1, statsEntries entry.2)])
      acc
    = acc ++ (data.filter fun p => p.2 ≠ []).map fun p => (p.1, statsEntries p.2) := by
  induction data generalizing acc with
  | nil => simp
  | cons p rest ih =>
    by_cases h : p.2 = [] <;> simp [h, ih]

/-- Claim C2: `get_global_stats` keeps exactly the metrics with a non-empty
    series (in data order) and maps each to per-sub-metric statistics; the
    sub-metric keys are those of the series' first frame minus `n`; and on a
    three-value series the average is the arithmetic mean, min/max are the
    extremes and the standard deviation is the population one (deviations
    squared, averaged over all three values, then rooted), each rounded to
    three decimals. -/
theorem get_global_stats_correct :
    (∀ data : List (String × List FrameRecord),
      getGlobalStats data
        = (data.filter fun p => p.2 ≠ []).map fun p => (p.1, statsEntries p.2))
    ∧ (∀ (fr : FrameRecord) (rest : List FrameRecord),
      (statsEntries (fr :: rest)).map Prod.fst = (fr.map Prod.fst).filter (· ≠ "n"))
    ∧ (∀ a b c : ℚ,
      (statsOf [a, b, c]).average = round3 ((a + b + c) / 3)
      ∧ (statsOf [a, b, c]).min = round3 (min a (min b c))
      ∧ (statsOf [a, b, c]).max = round3 (max a (max b c))
      ∧ (statsOf [a, b, c]).stdev =
          round3R (Real.sqrt
            ((((a : ℝ) - ((a : ℝ) + b + c) / 3) ^ 2
              + ((b : ℝ) - ((a : ℝ) + b + c) / 3) ^ 2
              + ((c : ℝ) - ((a : ℝ) + b + c) / 3) ^ 2) / 3))) := by
  refine ⟨?_, ?_, ?_⟩
  · intro data
    simpa [getGlobalStats] using getGlobalStats_eq_aux data []
  · intro fr rest
    simp [statsEntries, submetricKeys, Function.comp_def]
  · intro a b c
    have havg : npAverage [a, b, c] = (a + b + c) / 3 := by
      simp [npAverage]
      ring
    refine ⟨?_, ?_, ?_, ?_⟩
    · show round3 (npAverage [a, b, c]) = _
      rw [havg]
    · show round3 (npMin [a, b, c]) = _
      simp [npMin, min_assoc]
    · show round3 (npMax [a, b, c]) = _
      simp [npMax, max_assoc]
    · show round3R (npStd [a, b, c]) = _
      have hv : npVariance [a, b, c]
          = ((a - (a + b + c) / 3) ^ 2 + (b - (a + b + c) / 3) ^ 2
              + (c - (a + b + c) / 3) ^ 2) / 3 := by
        simp [npVariance, havg]
        ring
      unfold npStd
      rw [hv]
      congr 1
      congr 1
      push_cast
      ring

/-! ## Claim C3 — vmaf artifact harvesting -/

/-- Appending folds are maps. -/
theorem foldl_append_eq_map {α β : Type} (f : α → β) :
    ∀ (l : List α) (acc : List β),
      l.foldl (fun acc x => acc ++ [f x]) acc = acc ++ l.map f := by
  intro l
  induction l with
  | nil => intro acc; simp
  | cons x rest ih => intro acc; simp [ih]

/-- Claim C3: the vmaf harvester stores, for each `frames` record in order,
    the record's metrics object extended with `n = frameNum + 1`, converting
    the engine's 0-based counter to the 1-based convention; the stored `n`
    reads back as `frameNum + 1`. -/
theorem read_vmaf_frame_numbers :
    (∀ frames : List VmafFrame,
      readVmafTempFile frames
        = frames.map fun fr => dictSet fr.metrics "n" ((fr.frameNum + 1 : Int) : ℚ))
    ∧ (∀ fr : VmafFrame,
      dictGet (dictSet fr.metrics "n" ((fr.frameNum + 1 : Int) : ℚ)) "n"
        = some ((fr.frameNum + 1 : Int) : ℚ)) := by
  constructor
  · intro frames
    simpa [readVmafTempFile] using
      foldl_append_eq_map
        (fun fr : VmafFrame => dictSet fr.metrics "n" ((fr.frameNum + 1 : Int) : ℚ))
        frames []
  · intro fr
    exact dictGet_dictSet fr.metrics "n" ((fr.frameNum + 1 : Int) : ℚ)


/-! ## Claim C4 — vif console-text harvesting -/

/-- One line-loop iteration is the token iteration behind the
    metadata-line guard. -/
theorem vifStep_eq_tok (st : VifState) (line : String) :
    vifStep st line =
      if pyStartsWith line "[Parsed_metadata" then vifStepTok st (vifField3 line)
      else st := by
  cases h : pyStartsWith line "[Parsed_metadata" <;>
    simp [vifStep, vifStepTok, h]

/-- The line fold of `_read_vif_output` only consumes the metadata tokens
    of the lines bearing the metadata-stage marker. -/
theorem foldl_vifStep_eq :
    ∀ (lines : List String) (st : VifState),
      lines.foldl vifStep st
        = (((lines.filter fun l => pyStartsWith l "[Parsed_metadata").map
            vifField3).foldl vifStepTok st) := by
  intro lines
  induction lines with
  | nil => intro st; simp
  | cons l rest ih =>
    intro st
    cases h : pyStartsWith l "[Parsed_metadata" <;>
      simp [h, vifStep_eq_tok, ih]

/-- Invariant fold lemma: running the token loop from any reachable state
    and flushing equals the already-emitted records followed by the
    grouping parse of the remaining tokens seeded with the pending record. -/
theorem vifFold_spec :
    ∀ (toks : List String) (st : VifState),
      (st.frameData = [] ↔ st.currentFrame = none) →
      finishVif (toks.foldl vifStepTok st)
        = st.acc ++ vifSpecGo
            (if st.frameData = [] then none else some st.frameData) toks := by
  intro toks
  induction toks with
  | nil =>
    intro st hinv
    by_cases h : st.frameData = [] <;> simp [finishVif, vifSpecGo, h]
  | cons tok rest ih =>
    intro st hinv
    simp only [List.foldl_cons]
    by_cases hf : pyStartsWith tok "frame" = true
    · have hstep : vifStepTok st tok =
          { currentFrame := some (vifFrameNum tok)
            frameData := [("n", ((vifFrameNum tok : Int) : ℚ))]
            acc := if st.frameData ≠ [] then st.acc ++ [st.frameData] else st.acc } := by
        simp [vifStepTok, hf]
      rw [hstep, ih _ (by simp)]
      by_cases h : st.frameData = [] <;> simp [vifSpecGo, hf, h]
    · by_cases hc : st.currentFrame = none
      · have hfd : st.frameData = [] := hinv.mpr hc
        have hstep : vifStepTok st tok = st := by
          simp [vifStepTok, hf, hc]
        rw [hstep, ih st hinv]
        simp [vifSpecGo, hf, hfd]
      · have hfd : ¬ st.frameData = [] := fun h => hc (hinv.mp h)
        by_cases hl : pyStartsWith tok "lavfi.vif" = true
        · have hstep : vifStepTok st tok =
              { st with frameData := vifApplyTok st.frameData tok } := by
            simp [vifStepTok, hf, hc, hl]
          have hne : vifApplyTok st.frameData tok ≠ [] := by
            simpa [vifApplyTok, hl] using
              dictSet_ne_nil st.frameData
                (vifRenameKey ((pySplit tok '=').getD 0 ""))
                (round3 (pyToRat ((pySplit tok '=').getD 1 "")))
          rw [hstep, ih _ (by simpa [hne] using fun h => absurd h hc)]
          simp [vifSpecGo, hf, hfd, hne]
        · have hstep : vifStepTok st tok = st := by
            simp [vifStepTok, hf, hc, hl]
          have happ : vifApplyTok st.frameData tok = st.frameData := by
            simp [vifApplyTok, hl]
          rw [hstep, ih st hinv]
          simp [vifSpecGo, hf, hfd, happ]

/-- Record count of the grouping parse: one record per boundary token plus
    the pending one. -/
theorem vifSpecGo_length :
    ∀ (toks : List String) (pending : Option FrameRecord),
      (vifSpecGo pending toks).length
        = toks.countP (fun t => pyStartsWith t "frame")
            + (match pending with | none => 0 | some _ => 1) := by
  intro toks
  induction toks with
  | nil => intro pending; cases pending <;> simp [vifSpecGo]
  | cons tok rest ih =>
    intro pending
    by_cases hf : pyStartsWith tok "frame" = true
    · cases pending <;> simp [vifSpecGo, hf, ih, List.countP_cons]
    · cases pending <;> simp [vifSpecGo, hf, ih, List.countP_cons]

/-- Counterexample to C4's record-count clause: on a text whose first
    frame-boundary token is immediately followed by another boundary, the
    parser stores two records while only one boundary token is followed by
    data or by the end of the text. -/
theorem read_vif_output_count_counterexample :
    (readVifOutput vifEx).length = 2
    ∧ vifClaimedCount (vifTokens vifEx) = 1
    ∧ (readVifOutput vifEx).length ≠ vifClaimedCount (vifTokens vifEx) := by
  refine ⟨by decide, by decide, by decide⟩

/-- Claim C4 as amended: the vif harvester considers only lines bearing the
    metadata-stage marker; a `frame:<n>` token flushes the pending record
    and starts a new one whose `n` is the token value used as-is (0-based);
    following `lavfi.vif` tokens accumulate renamed, 3-decimal-rounded
    values until the next boundary or the end of text, where the last
    record is flushed (all of which `vifSpecParse` states declaratively);
    and the number of stored records equals the number of frame-boundary
    tokens. -/
theorem read_vif_output_spec (out : String) :
    readVifOutput out = vifSpecParse out
    ∧ (readVifOutput out).length = vifBoundaryCount out := by
  have h0 : readVifOutput out
      = finishVif (((pySplit out '\n').map pyStrip).foldl vifStep ⟨none, [], []⟩) := by
    simp [readVifOutput, finishVif]
  have h1 : readVifOutput out = vifSpecParse out := by
    rw [h0, foldl_vifStep_eq]
    simpa [vifTokens, vifSpecParse] using
      vifFold_spec
        ((((pySplit out '\n').map pyStrip).filter
            fun l => pyStartsWith l "[Parsed_metadata").map vifField3)
        ⟨none, [], []⟩ (by simp)
  refine ⟨h1, ?_⟩
  rw [h1]
  simpa [vifSpecParse, vifBoundaryCount] using
    vifSpecGo_length (vifTokens out) none

/-! ## Claim C5 — libvmaf options string -/

/-- Feature normalisation with the branch condition written positively. -/
theorem featureEntry_eq (f : String) :
    featureEntry f
      = pyReplace (if pyStartsWith f "name" then f else "name=" ++ f) ":" "\\:" := by
  by_cases h : pyStartsWith f "name" = true <;> simp [featureEntry, h]

set_option maxRecDepth 20000 in
/-- Counterexample to C5's feature clause: the code tests only for the
    prefix `name`, not for an explicit `name=` parameter, so a feature
    string such as `namefoo` is passed through instead of being prefixed
    with `name=` as the claim requires. -/
theorem get_libvmaf_filter_opts_counterexample :
    getLibvmafFilterOpts vmafCfgNameFoo ≠ libvmafOptsClaimed vmafCfgNameFoo := by
  decide

/-- Claim C5 as amended: the libvmaf options string is the model specifier
    (`path=<resolved path>` merged with the extra `key=value` model
    parameters, joined by the escaped colon), then `log_path`,
    `log_fmt=json`, `n_threads` and `n_subsample`, and — when features were
    requested — a `feature` parameter whose entries default to
    `name=<feature>` whenever the feature does not already start with
    `name`, with colons escaped inside each feature and multiple features
    pipe-joined. -/
theorem get_libvmaf_filter_opts_spec (cfg : LibvmafConfig) :
    getLibvmafFilterOpts cfg = libvmafOptsAmended cfg := by
  have hfe : featureEntry = fun f =>
      pyReplace (if pyStartsWith f "name" then f else "name=" ++ f) ":" "\\:" :=
    funext featureEntry_eq
  unfold getLibvmafFilterOpts libvmafOptsAmended libvmafOptsStated
  by_cases h : cfg.features = []
  · simp only [h, ne_eq, not_true_eq_false, if_false, ite_false, if_pos rfl]
    simp [joinSep, String.append_assoc, String.append_empty, String.ext_iff,
      String.data_append, List.append_assoc]
  · simp only [hfe, h, ne_eq, not_false_eq_true, if_true, ite_true, if_neg h]
    simp [joinSep, String.append_assoc, String.ext_iff,
      String.data_append, List.append_assoc]

/-! ## Claim C8 — frame-rate reconciliation -/

/-- Claim C8 as amended: a forced non-zero frame rate is returned for both
    sides with no probe invocation; with no forced rate both files are
    probed independently and a successful pair of probes never fails —
    differing rates only add a warning. -/
theorem resolve_framerates_spec :
    (∀ (cfg : CalcConfig) (env : CalcEnv) (r : ℚ),
      cfg.framerate = some r → r ≠ 0 →
      resolveFramerates cfg env = (Except.ok (r, r), []))
    ∧ (∀ (cfg : CalcConfig) (env : CalcEnv) (r1 r2 : ℚ),
      cfg.framerate = none → env.probeRef = some r1 → env.probeDist = some r2 →
      resolveFramerates cfg env
        = (Except.ok (r1, r2),
           [CalcEvent.probeFps cfg.ref, CalcEvent.probeFps cfg.dist]
             ++ if r1 ≠ r2 then [CalcEvent.warnFpsMismatch] else [])) := by
  constructor
  · intro cfg env r hfr hr
    simp [resolveFramerates, hfr, hr]
  · intro cfg env r1 r2 hfr h1 h2
    simp [resolveFramerates, getFramerates, hfr, h1, h2]

/-- Witness for C8: a forced rate of 25 skips both probes; unforced probes
    returning 25 and 30 still succeed, with a mismatch warning. -/
theorem resolve_framerates_witness :
    resolveFramerates cfgForced25 envProbes = (Except.ok (25, 25), [])
    ∧ resolveFramerates cfgBase envProbes
        = (Except.ok (25, 30),
           [CalcEvent.probeFps cfgBase.ref, CalcEvent.probeFps cfgBase.dist]
             ++ if (25 : ℚ) ≠ 30 then [CalcEvent.warnFpsMismatch] else []) := by
  constructor
  · exact resolve_framerates_spec.1 cfgForced25 envProbes 25 rfl (by norm_num)
  · exact resolve_framerates_spec.2 cfgBase envProbes 25 30 rfl rfl rfl

/-- Counterexample to C8 as stated: the forced rate `0` is falsy in Python,
    so both files are probed and the probed rates — not the forced value —
    are returned. -/
theorem resolve_framerates_counterexample :
    cfgForced0.framerate = some 0
    ∧ resolveFramerates cfgForced0 envProbes
        = (Except.ok ((25 : ℚ), (30 : ℚ)),
           [CalcEvent.probeFps "r.mp4", CalcEvent.probeFps "d.mp4",
            CalcEvent.warnFpsMismatch]) := by
  refine ⟨rfl, ?_⟩
  have h : ((25 : ℚ) = 30) = False := by norm_num
  simp [resolveFramerates, getFramerates, cfgForced0, cfgBase, envProbes, h]

/-! ## Claim C6 — pre-invocation validation errors -/

/-- The validation loop reports an error whenever some requested metric is
    unknown or its filter is unavailable. -/
theorem checkMetrics_error :
    ∀ (metrics avail : List String),
      ((∃ m ∈ metrics, List.lookup m metricToFilterMap = none)
        ∨ (∃ m ∈ metrics, ∃ f, List.lookup m metricToFilterMap = some f ∧ f ∉ avail)) →
      ∃ msg, checkMetrics metrics avail = some msg := by
  intro metrics
  induction metrics with
  | nil =>
    intro avail h
    rcases h with ⟨m, hm, _⟩ | ⟨m, hm, _⟩ <;> simp at hm
  | cons m0 rest ih =>
    intro avail h
    cases hl : List.lookup m0 metricToFilterMap with
    | none => exact ⟨"No such metric '" ++ m0 ++ "'", by simp [checkMetrics, hl]⟩
    | some f =>
      by_cases hp : f ∈ possibleFilters
      · by_cases ha : f ∈ avail
        · have hrest : (∃ m ∈ rest, List.lookup m metricToFilterMap = none)
              ∨ (∃ m ∈ rest, ∃ f, List.lookup m metricToFilterMap = some f ∧ f ∉ avail) := by
            rcases h with ⟨m, hm, hmn⟩ | ⟨m, hm, f', hf', hfa⟩
            · rcases List.mem_cons.mp hm with rfl | hm'
              · rw [hl] at hmn; cases hmn
              · exact Or.inl ⟨m, hm', hmn⟩
            · rcases List.mem_cons.mp hm with rfl | hm'
              · rw [hl] at hf'; cases hf'; exact absurd ha hfa
              · exact Or.inr ⟨m, hm', f', hf', hfa⟩
          obtain ⟨msg, hmsg⟩ := ih avail hrest
          exact ⟨msg, by simp [checkMetrics, hl, hp, ha, hmsg]⟩
        · exact ⟨"Your ffmpeg version does not have the filter '" ++ f ++ "'",
            by simp [checkMetrics, hl, hp, ha]⟩
      · exact ⟨"No such metric '" ++ m0 ++ "'", by simp [checkMetrics, hl, hp]⟩

/-- A failing validation makes `calculate` return the typed error with no
    events and an untouched file system. -/
theorem calculate_of_validate_error (cfg : CalcConfig) (metrics : List String)
    (env : CalcEnv) (msg : String) (h : validateMetrics metrics env = some msg) :
    calculate cfg metrics env
      = (Except.error (CalcError.metricsError msg), [], env.filesBefore) := by
  simp [calculate, h]

/-- Claim C6: a metric name outside the known set, or a requested metric
    whose engine filter is missing from the probed available set, makes
    `calculate` raise the typed `FfmpegQualityMetricsError` with no engine
    subprocess spawned; in particular a vmaf request on a libvmaf-less build
    fails with the specific unsupported-filter message. -/
theorem calculate_validation_errors :
    (∀ (cfg : CalcConfig) (metrics : List String) (env : CalcEnv),
      ((∃ m ∈ metrics, List.lookup m metricToFilterMap = none)
        ∨ (∃ m ∈ metrics, ∃ f, List.lookup m metricToFilterMap = some f
            ∧ f ∉ env.availableFilters)) →
      ∃ msg, (calculate cfg metrics env).1 = Except.error (CalcError.metricsError msg)
        ∧ CalcEvent.spawnEngine ∉ (calculate cfg metrics env).2.1)
    ∧ (∀ (cfg : CalcConfig) (env : CalcEnv),
      "libvmaf" ∉ env.availableFilters →
      (calculate cfg ["vmaf"] env).1
        = Except.error (CalcError.metricsError
            "Your ffmpeg version does not have the filter 'libvmaf'")
        ∧ CalcEvent.spawnEngine ∉ (calculate cfg ["vmaf"] env).2.1) := by
  constructor
  · intro cfg metrics env h
    have hne : metrics ≠ [] := by
      rcases h with ⟨m, hm, _⟩ | ⟨m, hm, _⟩ <;> exact List.ne_nil_of_mem hm
    obtain ⟨msg, hmsg⟩ := checkMetrics_error metrics env.availableFilters h
    have hv : validateMetrics metrics env = some msg := by
      simp [validateMetrics, hne, hmsg]
    rw [calculate_of_validate_error cfg metrics env msg hv]
    exact ⟨msg, rfl, by simp⟩
  · intro cfg env h
    have hcm : checkMetrics ["vmaf"] env.availableFilters
        = some "Your ffmpeg version does not have the filter 'libvmaf'" := by
      have hl : List.lookup "vmaf" metricToFilterMap = some "libvmaf" := by decide
      have hp : "libvmaf" ∈ possibleFilters := by decide
      simp [checkMetrics, hl, hp, h]
    have hv : validateMetrics ["vmaf"] env
        = some "Your ffmpeg version does not have the filter 'libvmaf'" := by
      simp [validateMetrics, hcm]
    rw [calculate_of_validate_error cfg ["vmaf"] env _ hv]
    exact ⟨rfl, by simp⟩

/-- Witness for C6: an unknown metric name and a vmaf request without
    libvmaf each fail before any engine spawn. -/
theorem calculate_validation_errors_witness :
    ((calculate cfgBase ["vmaf"] envNoVmaf).1
      = Except.error (CalcError.metricsError
          "Your ffmpeg version does not have the filter 'libvmaf'"))
    ∧ CalcEvent.spawnEngine ∉ (calculate cfgBase ["vmaf"] envNoVmaf).2.1
    ∧ CalcEvent.spawnEngine ∉ (calculate cfgBase ["nope"] envProbes).2.1 := by
  refine ⟨?_, ?_, ?_⟩
  · exact (calculate_validation_errors.2 cfgBase envNoVmaf (by decide)).1
  · exact (calculate_validation_errors.2 cfgBase envNoVmaf (by decide)).2
  · exact (calculate_validation_errors.1 cfgBase ["nope"] envProbes
      (Or.inl ⟨"nope", by simp, by decide⟩)).choose_spec.2

/-! ## Claim C7 — guaranteed cleanup of disposable artifacts -/

/-- Cleanup never adds files. -/
theorem cleanup_subset (keep : Bool) :
    ∀ (ts files : List String) (x : String),
      x ∈ (cleanupTempFiles keep ts files).1 → x ∈ files := by
  intro ts
  induction ts with
  | nil => intro files x hx; simpa [cleanupTempFiles] using hx
  | cons t rest ih =>
    intro files x hx
    by_cases ht : t ∈ files
    · by_cases hk : keep = true
      · rw [cleanupTempFiles, if_pos ht, if_pos hk] at hx
        exact ih files x hx
      · rw [cleanupTempFiles, if_pos ht, if_neg hk] at hx
        have := ih (files.filter (· ≠ t)) x hx
        exact List.mem_of_mem_filter this
    · rw [cleanupTempFiles, if_neg ht] at hx
      exact ih files x hx

/-- Without retention, every temp path that cleanup visits is absent from
    the resulting file set. -/
theorem cleanup_not_mem :
    ∀ (ts files : List String) (t : String),
      t ∈ ts → t ∉ (cleanupTempFiles false ts files).1 := by
  intro ts
  induction ts with
  | nil => intro files t ht; simp at ht
  | cons t0 rest ih =>
    intro files t ht
    rcases List.mem_cons.mp ht with rfl | ht'
    · by_cases h0 : t ∈ files
      · rw [cleanupTempFiles, if_pos h0, if_neg (by simp)]
        intro hx
        have := cleanup_subset false rest (files.filter (· ≠ t)) t hx
        simp at this
      · rw [cleanupTempFiles, if_neg h0]
        intro hx
        exact h0 (cleanup_subset false rest files t hx)
    · by_cases h0 : t0 ∈ files
      · rw [cleanupTempFiles, if_pos h0, if_neg (by simp)]
        exact ih (files.filter (· ≠ t0)) t ht'
      · rw [cleanupTempFiles, if_neg h0]
        exact ih files t ht'

/-- With retention, cleanup touches nothing and emits no events. -/
theorem cleanup_keep_files :
    ∀ (ts files : List String), cleanupTempFiles true ts files = (files, []) := by
  intro ts
  induction ts with
  | nil => intro files; rfl
  | cons t rest ih =>
    intro files
    by_cases h0 : t ∈ files
    · rw [cleanupTempFiles, if_pos h0, if_pos rfl]
      exact ih files
    · rw [cleanupTempFiles, if_neg h0]
      exact ih files

/-- Cleanup emits only file-removal events. -/
theorem cleanup_events_remove (keep : Bool) :
    ∀ (ts files : List String) (e : CalcEvent),
      e ∈ (cleanupTempFiles keep ts files).2 → ∃ p, e = CalcEvent.removeFile p := by
  intro ts
  induction ts with
  | nil => intro files e he; simp [cleanupTempFiles] at he
  | cons t rest ih =>
    intro files e he
    by_cases h0 : t ∈ files
    · by_cases hk : keep = true
      · rw [cleanupTempFiles, if_pos h0, if_pos hk] at he
        exact ih files e he
      · rw [cleanupTempFiles, if_pos h0, if_neg hk] at he
        rcases List.mem_cons.mp he with rfl | he'
        · exact ⟨t, rfl⟩
        · exact ih (files.filter (· ≠ t)) e he'
    · rw [cleanupTempFiles, if_neg h0] at he
      exact ih files e he

/-- The frame-rate resolution emits only probe and warning events. -/
theorem resolveFramerates_events (cfg : CalcConfig) (env : CalcEnv) :
    ∀ e ∈ (resolveFramerates cfg env).2,
      e = CalcEvent.probeFps cfg.ref ∨ e = CalcEvent.probeFps cfg.dist
        ∨ e = CalcEvent.warnFpsMismatch := by
  intro e he
  unfold resolveFramerates getFramerates at he
  by_cases hf : cfg.framerate.getD 0 = 0
  · rw [if_pos hf] at he
    cases h1 : env.probeRef with
    | none => rw [h1] at he; simp at he; simp [he]
    | some r1 =>
      rw [h1] at he
      cases h2 : env.probeDist with
      | none => rw [h2] at he; simp at he; tauto
      | some r2 =>
        rw [h2] at he
        by_cases hne : r1 ≠ r2
        · simp only [hne, if_true, ite_true] at he
          simp at he; tauto
        · simp only [hne, if_false, ite_false] at he
          simp at he; tauto
  · rw [if_neg hf] at he
    simp at he

/-- Once validation has passed, `calculate` always ends by applying the
    cleanup to some file-system state, with every earlier event being a
    probe, a warning or the engine spawn — never a file removal. -/
theorem calculate_shape (cfg : CalcConfig) (metrics : List String) (env : CalcEnv)
    (h : validateMetrics metrics env = none) :
    ∃ (r : Except CalcError (List (String × List FrameRecord)))
      (evs0 : List CalcEvent) (base : List String),
      calculate cfg metrics env
        = (r, evs0 ++ (cleanupTempFiles cfg.keepTmpFiles (tempFileList cfg) base).2,
           (cleanupTempFiles cfg.keepTmpFiles (tempFileList cfg) base).1)
      ∧ (∀ e ∈ evs0, ∀ p, e ≠ CalcEvent.removeFile p) := by
  rcases hpr : resolveFramerates cfg env with ⟨res, evs⟩
  have hevs : ∀ e ∈ evs, ∀ p, e ≠ CalcEvent.removeFile p := by
    intro e he p hc
    have hmem := resolveFramerates_events cfg env e (by rw [hpr]; exact he)
    subst hc
    rcases hmem with hx | hx | hx <;> cases hx
  have hevs2 : ∀ e ∈ evs ++ [CalcEvent.spawnEngine], ∀ p, e ≠ CalcEvent.removeFile p := by
    intro e he p
    rcases List.mem_append.mp he with h1 | h1
    · exact hevs e h1 p
    · simp at h1; subst h1; simp
  cases res with
  | error e =>
    refine ⟨Except.error e, evs, env.filesBefore, ?_, hevs⟩
    simp [calculate, h, hpr]
  | ok rr =>
    by_cases hd : cfg.dryRun = true
    · refine ⟨Except.error (CalcError.metricsError "ffmpeg output is empty!"),
        evs, env.filesBefore, ?_, hevs⟩
      simp [calculate, h, hpr, hd]
    · cases he : env.engineRun with
      | error msg =>
        refine ⟨Except.error (CalcError.runtimeError msg),
          evs ++ [CalcEvent.spawnEngine], env.filesAfterRun, ?_, hevs2⟩
        simp [calculate, h, hpr, hd, he]
      | ok output =>
        cases hrt : readTempFiles metrics env with
        | error msg =>
          refine ⟨Except.error (CalcError.runtimeError msg),
            evs ++ [CalcEvent.spawnEngine], env.filesAfterRun, ?_, hevs2⟩
          simp [calculate, h, hpr, hd, he, hrt]
        | ok trip =>
          rcases trip with ⟨vm, ss, ps⟩
          by_cases ho : output = ""
          · refine ⟨Except.error (CalcError.metricsError "ffmpeg output is empty!"),
              evs ++ [CalcEvent.spawnEngine], env.filesAfterRun, ?_, hevs2⟩
            simp [calculate, h, hpr, hd, he, hrt, ho]
          · refine ⟨Except.ok
              (List.filter (fun p => ¬ p.2.isEmpty)
                [("vmaf", vm), ("psnr", ps), ("ssim", ss),
                 ("vif", if "vif" ∈ metrics then readVifOutput output else [])]),
              evs ++ [CalcEvent.spawnEngine], env.filesAfterRun, ?_, hevs2⟩
            simp [calculate, h, hpr, hd, he, hrt, ho]

/-- Claim C7: once the engine-invocation phase has been entered, whether
    `calculate` returns or raises, no disposable artifact path survives in
    the final file set unless retention was requested — and with retention
    no removal event is ever emitted. -/
theorem calculate_cleanup (cfg : CalcConfig) (metrics : List String) (env : CalcEnv)
    (h : validateMetrics metrics env = none) :
    (cfg.keepTmpFiles = false →
      ∀ t ∈ tempFileList cfg, t ∉ (calculate cfg metrics env).2.2)
    ∧ (cfg.keepTmpFiles = true →
      ∀ e ∈ (calculate cfg metrics env).2.1, ∀ p, e ≠ CalcEvent.removeFile p) := by
  obtain ⟨r, evs0, base, hcalc, hnorem⟩ := calculate_shape cfg metrics env h
  constructor
  · intro hk t ht
    rw [hcalc, hk]
    exact cleanup_not_mem (tempFileList cfg) base t ht
  · intro hk e he p
    rw [hcalc, hk] at he
    rw [cleanup_keep_files] at he
    simp only [List.append_nil] at he
    exact hnorem e he p

/-- Witness for C7: a validated psnr run without retention leaves no psnr
    artifact behind, and the same run with retention emits no removal. -/
theorem calculate_cleanup_witness :
    validateMetrics ["psnr"] envProbes = none
    ∧ tempFileFor cfgBase "psnr" ∉ (calculate cfgBase ["psnr"] envProbes).2.2
    ∧ CalcEvent.removeFile (tempFileFor cfgKeep "psnr")
        ∉ (calculate cfgKeep ["psnr"] envProbes).2.1 := by
  refine ⟨by decide, ?_, ?_⟩
  · exact (calculate_cleanup cfgBase ["psnr"] envProbes (by decide)).1 rfl
      (tempFileFor cfgBase "psnr") (by decide)
  · intro hmem
    exact (calculate_cleanup cfgKeep ["psnr"] envProbes (by decide)).2 rfl _ hmem _ rfl

/-! ## Claim C10 — dry-run behaviour -/

/-- Claim C10 as amended: in a dry run (progress disabled) whose frame-rate
    resolution succeeds, the engine invocation contributes empty captured
    output without an engine spawn, and `calculate` always raises the typed
    error "ffmpeg output is empty!" after running the cleanup path. -/
theorem calculate_dry_run (cfg : CalcConfig) (metrics : List String) (env : CalcEnv)
    (h : validateMetrics metrics env = none) (hd : cfg.dryRun = true)
    (rr : ℚ × ℚ) (evs : List CalcEvent)
    (hfr : resolveFramerates cfg env = (Except.ok rr, evs)) :
    (calculate cfg metrics env).1
      = Except.error (CalcError.metricsError "ffmpeg output is empty!")
    ∧ CalcEvent.spawnEngine ∉ (calculate cfg metrics env).2.1
    ∧ (cfg.keepTmpFiles = false →
      ∀ t ∈ tempFileList cfg, t ∉ (calculate cfg metrics env).2.2) := by
  have hcalc : calculate cfg metrics env
      = (Except.error (CalcError.metricsError "ffmpeg output is empty!"),
         evs ++ (cleanupTempFiles cfg.keepTmpFiles (tempFileList cfg) env.filesBefore).2,
         (cleanupTempFiles cfg.keepTmpFiles (tempFileList cfg) env.filesBefore).1) := by
    simp [calculate, h, hfr, hd]
  refine ⟨by rw [hcalc], ?_, ?_⟩
  · rw [hcalc]
    intro hmem
    rcases List.mem_append.mp hmem with h1 | h1
    · have hx := resolveFramerates_events cfg env _ (by rw [hfr]; exact h1)
      rcases hx with hx | hx | hx <;> simp at hx
    · obtain ⟨p, hp⟩ :=
        cleanup_events_remove cfg.keepTmpFiles (tempFileList cfg) env.filesBefore _ h1
      simp at hp
  · intro hk t ht
    rw [hcalc, hk]
    exact cleanup_not_mem (tempFileList cfg) env.filesBefore t ht

/-- Witness for C10 at a dry run with a forced frame rate. -/
theorem calculate_dry_run_witness :
    (calculate cfgDryForced ["psnr"] envProbes).1
      = Except.error (CalcError.metricsError "ffmpeg output is empty!")
    ∧ CalcEvent.spawnEngine ∉ (calculate cfgDryForced ["psnr"] envProbes).2.1 := by
  have h := calculate_dry_run cfgDryForced ["psnr"] envProbes (by decide) rfl
    (25, 25) [] (by norm_num [resolveFramerates, cfgDryForced, cfgBase])
  exact ⟨h.1, h.2.1⟩

set_option maxRecDepth 20000 in
/-- Counterexample to C10 as stated: a dry run whose reference probe has no
    parseable frame rate raises the probe error, not "ffmpeg output is
    empty!" — so dry-run mode does not always raise the latter. -/
theorem calculate_dry_run_counterexample :
    cfgDry.dryRun = true
    ∧ (calculate cfgDry ["psnr"] envProbeFail).1
        = Except.error (CalcError.metricsError "could not parse FPS from file r.mp4!")
    ∧ ("could not parse FPS from file r.mp4!" : String) ≠ "ffmpeg output is empty!" := by
  have hv : validateMetrics ["psnr"] envProbeFail = none := by decide
  have hs : "could not parse FPS from file " ++ "r.mp4" ++ "!"
      = "could not parse FPS from file r.mp4!" := by decide
  have hfr : resolveFramerates cfgDry envProbeFail
      = (Except.error (CalcError.metricsError "could not parse FPS from file r.mp4!"),
         [CalcEvent.probeFps "r.mp4"]) := by
    simp [resolveFramerates, getFramerates, cfgDry, cfgBase, envProbeFail, envProbes,
      probeResult, hs, Except.map]
  refine ⟨rfl, ?_, by decide⟩
  simp [calculate, hv, hfr]

/-! ## Claim C9 — frame-count cap (spec-modelled) -/

/-- Claim C9: the optional frame-count cap yields `min cap available`
    frames numbered from 1; concretely 2 of 3 frames give `n = 1, 2` and a
    cap of 10 on a 3-frame source gives all 3 frames rather than an error. -/
theorem num_frames_cap :
    (∀ (s k : Nat), (cappedSeries s (some k)).length = min k s)
    ∧ (∀ s : Nat, (cappedSeries s none).length = s)
    ∧ (∀ (s k : Nat),
        (cappedSeries s (some k)).map (fun fr => dictGet fr "n")
          = (List.range (min k s)).map fun i => some ((i + 1 : Nat) : ℚ))
    ∧ (cappedSeries 3 (some 2)).map (fun fr => dictGet fr "n")
        = [some ((1 : Nat) : ℚ), some ((2 : Nat) : ℚ)]
    ∧ (cappedSeries 3 (some 10)).length = 3 := by
  refine ⟨?_, ?_, ?_, ?_, ?_⟩
  · intro s k; simp [cappedSeries, engineFrameCount]
  · intro s; simp [cappedSeries, engineFrameCount]
  · intro s k
    simp [cappedSeries, engineFrameCount, dictGet]
  · norm_num [cappedSeries, engineFrameCount, dictGet, List.range_succ]
  · norm_num [cappedSeries, engineFrameCount]
